import Mathlib

/-!
Shallow embedding of `tinygrad/runtime/ops_gpu.py`: the OpenCL backend
(status checking, compiler pipeline, program invocation, allocator,
device lifecycle).  Driver behaviour (statuses, build logs, timestamps)
is supplied explicitly as data, mirroring the values the C driver would
return; each Python function becomes a Lean function over that data.
-/

set_option autoImplicit false

namespace OpsGpu

/-- A host memory span (Python `memoryview`): an identity (so "the span
itself, by reference" is expressible), an element count and an element
byte width. -/
structure MemoryView where
  id : Nat
  length : Nat
  itemsize : Nat
  deriving DecidableEq, Repr

/-- The exceptions `ops_gpu.py` can raise: `RuntimeError` from `check`
(carrying the numeric driver status), `RuntimeError` from the compile
failure path (carrying the build log message), the `assert` failure in
`compile_cl`, and the `KeyError` from the image-format dict lookup in
`CLAllocator._alloc`. -/
inductive CLExn where
  | runtimeError (status : Int)
  | compileError (msg : String)
  | assertionError (msg : String)
  | keyError (key : Nat)
  deriving DecidableEq, Repr

/-- `check(status)`: raise `RuntimeError` when the driver status is
non-zero, otherwise no-op (lines 12-13). -/
def check (status : Int) : Except CLExn Unit :=
  if status ≠ 0 then .error (.runtimeError status) else .ok ()

/-- `checked(ret, status)`: `check` the status, then pass `ret` through
(lines 14-16). -/
def checked {α : Type} (ret : α) (status : Int) : Except CLExn α := do
  check status
  pure ret

/-! ## Compiler pipeline (`compile_cl`, lines 18-34) -/

/-- The driver-side data `compile_cl` consumes: the status of each driver
call it makes, the build log the driver would report (fetched by the
two-step size-then-fetch protocol) and the program binary. -/
structure CompilerDriver where
  createProgramStatus : Int
  buildStatus : Int
  buildLogStr : String
  binary : List UInt8
  binarySizesStatus : Int
  binariesStatus : Int
  releaseStatus : Int
  deriving DecidableEq, Repr

/-- First `clGetProgramBuildInfo` call (line 25): query the required
buffer size for the build log. -/
def CompilerDriver.buildLogSize (drv : CompilerDriver) : Nat :=
  drv.buildLogStr.length

/-- Second `clGetProgramBuildInfo` call (line 26): fetch the log into a
buffer of the given size; `ctypes.string_at(mstr, size=log_size)` then
decodes exactly that many bytes. -/
def CompilerDriver.fetchBuildLog (drv : CompilerDriver) (size : Nat) : String :=
  ⟨drv.buildLogStr.data.take size⟩

/-- The assertion message on line 20. -/
def compilerContextAssertMsg : String :=
  "OpenCL requires a \"compiler_context\" to compile, init a device before you call this"

/-- `compile_cl(prg)` (lines 18-34), with the compiler context passed
explicitly (`CLDevice.compiler_context` is process state) and the driver
responses passed as data.  The `@diskcache` wrapper is external to this
file's source and out of the core's scope; this is the function body. -/
def compile_cl (compiler_context : Option Unit) (drv : CompilerDriver) :
    Except CLExn (List UInt8) := do
  match compiler_context with
  | none => .error (.assertionError compilerContextAssertMsg)
  | some _ => do
    let _program ← checked () drv.createProgramStatus
    let status := drv.buildStatus
    if status ≠ 0 then
      let log_size := drv.buildLogSize
      let mstr := drv.fetchBuildLog log_size
      .error (.compileError ("OpenCL Compile Error\n\n" ++ mstr))
    else do
      check drv.binarySizesStatus
      check drv.binariesStatus
      check drv.releaseStatus
      pure drv.binary

/-! ## Program invocation: dispatch geometry (`CLProgram.__call__`, line 55-57) -/

/-- Line 55: `if local_size is not None: global_size = tuple(int(g*l) for
g,l in zip(global_size, local_size))`.  Python `zip` truncates to the
shorter sequence. -/
def effectiveGlobalSize (global_size : List Nat) (local_size : Option (List Nat)) :
    List Nat :=
  match local_size with
  | none => global_size
  | some l => List.zipWith (fun g li => g * li) global_size l

/-- The geometry arguments line 57 passes to `clEnqueueNDRangeKernel`:
`len(global_size)` (after the line-55 reassignment) as `work_dim`, the
reassigned `global_size` array, and the `local_size` array when given. -/
structure EnqueueParams where
  work_dim : Nat
  global_work_size : List Nat
  local_work_size : Option (List Nat)
  deriving DecidableEq, Repr

/-- The dispatch geometry of a `CLProgram.__call__` invocation. -/
def enqueueParams (global_size : List Nat) (local_size : Option (List Nat)) :
    EnqueueParams :=
  let g := effectiveGlobalSize global_size local_size
  { work_dim := g.length, global_work_size := g, local_work_size := local_size }

/-! ## Program invocation: profiling result (`CLProgram.__call__`, lines 56-64) -/

/-- Line 10: `OSX_TIMING_RATIO = (125/3) if OSX else 1.0`.  The
arithmetic is modelled exactly over the rationals. -/
def osxTimingRatio (osx : Bool) : ℚ :=
  if osx then 125 / 3 else 1

/-- The device-side data a single `__call__` consumes: statuses of the
checked driver calls and the event's profiling timestamps (`c_ulong`
counters read on lines 61-62). -/
structure CallDriver where
  enqueueStatus : Int
  waitStatus : Int
  profileStartStatus : Int
  profileEndStatus : Int
  startTime : Nat
  endTime : Nat
  osx : Bool
  deriving DecidableEq, Repr

/-- Line 56: an event object is created (and passed to the enqueue call)
exactly when `wait` is true. -/
def callEventCreated (wait : Bool) : Bool := wait

/-- The value `CLProgram.__call__` returns (lines 56-64): `check` the
enqueue; when `wait`, block on the event, read the start/end timestamps
(each read `check`ed) and return `float(end-start) * OSX_TIMING_RATIO *
1e-9`; otherwise return `None`. -/
def callResult (drv : CallDriver) (wait : Bool) : Except CLExn (Option ℚ) := do
  check drv.enqueueStatus
  if wait then do
    check drv.waitStatus
    check drv.profileStartStatus
    check drv.profileEndStatus
    pure (some ((((drv.endTime : Int) - (drv.startTime : Int) : Int) : ℚ) *
      osxTimingRatio drv.osx * (1 / 10 ^ 9)))
  else
    pure none

/-! ## Allocator (`CLAllocator`, lines 66-83) -/

/-- OpenCL image-format constants used on line 73 (values from
`gpuctypes.opencl` / the OpenCL headers). -/
def CL_RGBA : Nat := 0x10B5

/-- `CL_HALF_FLOAT` channel-type constant. -/
def CL_HALF_FLOAT : Nat := 0x10DD

/-- `CL_FLOAT` channel-type constant. -/
def CL_FLOAT : Nat := 0x10DE

/-- `cl.cl_image_format(channel_order, channel_data_type)`. -/
structure CLImageFormat where
  image_channel_order : Nat
  image_channel_data_type : Nat
  deriving DecidableEq, Repr

/-- The dtype argument of `CLAllocator._alloc`: either a plain `DType`
or an `ImageDType`; both carry `itemsize`, the image kind also carries
the `shape` tuple indexed on line 73. -/
inductive DTypeSpec where
  | plain (itemsize : Nat)
  | image (itemsize : Nat) (shape : List Nat)
  deriving DecidableEq, Repr

/-- The memory object `_alloc` asks the driver for: a 2D image with a
format/width/height, or a linear buffer of a byte size. -/
inductive MemRequest where
  | image2D (format : CLImageFormat) (width : Nat) (height : Nat)
  | buffer (byteSize : Nat)
  deriving DecidableEq, Repr

/-- Line 73's dict lookup: a Python `KeyError` when `itemsize` is
neither 2 nor 4; it is raised while the `clCreateImage2D` arguments are
evaluated, before any driver call. -/
def imageChannelType (itemsize : Nat) : Except CLExn Nat :=
  match itemsize with
  | 2 => .ok CL_HALF_FLOAT
  | 4 => .ok CL_FLOAT
  | k => .error (.keyError k)

/-- `CLAllocator._alloc(size, dtype)` (lines 70-76): image dtypes get a
`clCreateImage2D` with a format chosen by `itemsize`, width
`dtype.shape[1]` and height `dtype.shape[0]`; other dtypes get a
`clCreateBuffer` of `size*dtype.itemsize` bytes.  The driver's status is
passed through `checked`. -/
def alloc (size : Nat) (dtype : DTypeSpec) (status : Int) :
    Except CLExn MemRequest := do
  match dtype with
  | .image itemsize shape => do
    let fmtType ← imageChannelType itemsize
    checked (.image2D ⟨CL_RGBA, fmtType⟩ (shape.getD 1 0) (shape.getD 0 0)) status
  | .plain itemsize =>
    checked (.buffer (size * itemsize)) status

/-! ## Device state (`CLDevice`, lines 85-103) and the allocator's
transfer operations, which mutate the device's `pending_copyin` list. -/

/-- The per-instance mutable state of a `CLDevice` that the claims are
about: the ordered `pending_copyin` list (line 99). -/
structure CLDevice where
  pending_copyin : List MemoryView
  deriving DecidableEq, Repr

/-- `CLDevice.synchronize` (lines 101-103): `check(clFinish(queue))`,
then `pending_copyin.clear()`.  When `clFinish` reports failure the
`check` raises and the clear never runs; the returned state is the
device as left by the operation. -/
def synchronize (dev : CLDevice) (finishStatus : Int) :
    CLDevice × Except CLExn Unit :=
  match check finishStatus with
  | .error e => (dev, .error e)
  | .ok _ => ({ dev with pending_copyin := [] }, .ok ())

/-- `CLAllocator.copyin(dest, src)` (lines 78-80):
`check(clEnqueueWriteBuffer(..., len(src)*src.itemsize, ...))`, then
append `src` itself to the owning device's `pending_copyin`. -/
def copyin (dev : CLDevice) (src : MemoryView) (enqueueStatus : Int) :
    CLDevice × Except CLExn Unit :=
  match check enqueueStatus with
  | .error e => (dev, .error e)
  | .ok _ => ({ dev with pending_copyin := dev.pending_copyin ++ [src] }, .ok ())

/-- `CLAllocator.copyout(dest, src)` (lines 81-83):
`check(clEnqueueReadBuffer(...))`, then `self.device.synchronize()`. -/
def copyout (dev : CLDevice) (enqueueStatus : Int) (finishStatus : Int) :
    CLDevice × Except CLExn Unit :=
  match check enqueueStatus with
  | .error e => (dev, .error e)
  | .ok _ => synchronize dev finishStatus

/-- The operations of `ops_gpu.py` that run against a constructed
device, with the driver statuses each consumes.  `opAlloc`, `opFree` and
`opProgramCall` never touch `pending_copyin` in the source; they are
included so "no other operation removes elements" quantifies over every
operation. -/
inductive DeviceOp where
  | opCopyin (src : MemoryView) (enqueueStatus : Int)
  | opCopyout (enqueueStatus : Int) (finishStatus : Int)
  | opSynchronize (finishStatus : Int)
  | opAlloc (size : Nat) (dtype : DTypeSpec) (status : Int)
  | opFree (status : Int)
  | opProgramCall (drv : CallDriver) (wait : Bool)
  deriving DecidableEq, Repr

/-- Effect of each operation on the device state. -/
def applyOp (dev : CLDevice) (op : DeviceOp) : CLDevice × Except CLExn Unit :=
  match op with
  | .opCopyin src st => copyin dev src st
  | .opCopyout st fst => copyout dev st fst
  | .opSynchronize fst => synchronize dev fst
  | .opAlloc size dtype st => (dev, (alloc size dtype st).map fun _ => ())
  | .opFree st => (dev, check st)
  | .opProgramCall drv wait => (dev, (callResult drv wait).map fun _ => ())

/-- Whether an operation's `pending_copyin` effect is the body of
`CLDevice.synchronize` (directly, or via `copyout`'s call to it). -/
def DeviceOp.runsSynchronize : DeviceOp → Bool
  | .opCopyout _ _ => true
  | .opSynchronize _ => true
  | _ => false

/-! ## Process-wide state (`CLDevice.__init__`, lines 85-99) -/

/-- The class-level state of `CLDevice`: the write-once device-id cache
(line 86) and the write-once compiler context (line 87).  Device
instances are identified by tokens (construction order). -/
structure ProcessState where
  device_ids : Option (List Nat)
  compiler_context : Option Nat
  deriving DecidableEq, Repr

/-- Fresh process state: both class attributes are `None`. -/
def ProcessState.initial : ProcessState :=
  { device_ids := none, compiler_context := none }

/-- Lines 89-94: populate `CLDevice.device_ids` by driver enumeration
when it is still `None`; later constructions reuse the cached list.
`enumerated` is the id list the enumeration would produce. -/
def populateDeviceIds (ps : ProcessState) (enumerated : List Nat) : ProcessState :=
  match ps.device_ids with
  | none => { ps with device_ids := some enumerated }
  | some _ => ps

/-- Line 97: `if CLDevice.compiler_context is None:
CLDevice.compiler_context = self`. -/
def electCompilerContext (ps : ProcessState) (tok : Nat) : ProcessState :=
  match ps.compiler_context with
  | none => { ps with compiler_context := some tok }
  | some _ => ps

/-- The process-level effect of `CLDevice.__init__` (lines 88-99):
device-id population, then compiler-context election.  `tok` identifies
the instance being constructed. -/
def deviceInit (ps : ProcessState) (enumerated : List Nat) (tok : Nat) :
    ProcessState :=
  electCompilerContext (populateDeviceIds ps enumerated) tok

/-- Construct devices in sequence: token `i` for the i-th construction. -/
def constructDevices (enumerated : List Nat) (n : Nat) : ProcessState :=
  (List.range n).foldl (fun ps i => deviceInit ps enumerated i) ProcessState.initial

/-- Line 95: device selection.  `"name"` selects index 0, `"name:k"`
selects index `k` of the cached id list. -/
def selectDeviceId (ids : List Nat) (devstr : String) : Nat :=
  if (devstr.split (fun c => c = ':')).length ≤ 1 then ids.getD 0 0
  else ids.getD (((devstr.split (fun c => c = ':')).getD 1 "").toNat!) 0

/-! ## Driver-call traces (which call sites check their status) -/

/-- The driver entry points `ops_gpu.py` calls. -/
inductive CLCallKind where
  | clGetPlatformIDs
  | clGetDeviceIDs
  | clCreateContext
  | clCreateCommandQueue
  | clFinish
  | clCreateProgramWithSource
  | clBuildProgram
  | clGetProgramBuildInfo
  | clGetProgramInfo
  | clReleaseProgram
  | clCreateProgramWithBinary
  | clCreateKernel
  | clReleaseKernel
  | clSetKernelArg
  | clEnqueueNDRangeKernel
  | clWaitForEvents
  | clGetEventProfilingInfo
  | clCreateImage2D
  | clCreateBuffer
  | clReleaseMemObject
  | clEnqueueWriteBuffer
  | clEnqueueReadBuffer
  deriving DecidableEq, Repr

/-- One driver call as issued by a call site: which entry point, and
whether the site inspects the returned status so that a non-success
status raises (via `check`/`checked`, or the explicit `if status != 0`
test on line 24). -/
structure DriverCall where
  kind : CLCallKind
  statusChecked : Bool
  deriving DecidableEq, Repr

/-- Driver calls of `compile_cl` (lines 22-33), in order.  Line 23's
`clBuildProgram` status is tested explicitly on line 24; on failure the
two `clGetProgramBuildInfo` calls (lines 25-26) discard their statuses;
on success the remaining calls go through `check`. -/
def compileTrace (buildFailed : Bool) : List DriverCall :=
  [⟨.clCreateProgramWithSource, true⟩, ⟨.clBuildProgram, true⟩] ++
    (if buildFailed then
      [⟨.clGetProgramBuildInfo, false⟩, ⟨.clGetProgramBuildInfo, false⟩]
    else
      [⟨.clGetProgramInfo, true⟩, ⟨.clGetProgramInfo, true⟩, ⟨.clReleaseProgram, true⟩])

/-- Driver calls of `CLProgram.__init__` (lines 39-44): binary load
(both status outputs checked), unconditional build, kernel creation. -/
def programInitTrace : List DriverCall :=
  [⟨.clCreateProgramWithBinary, true⟩, ⟨.clBuildProgram, true⟩, ⟨.clCreateKernel, true⟩]

/-- Driver calls of `CLProgram.__del__` (lines 47-49). -/
def programDelTrace : List DriverCall :=
  [⟨.clReleaseKernel, true⟩, ⟨.clReleaseProgram, true⟩]

/-- Driver calls of `CLProgram.__call__` (lines 51-64) for `nbufs`
positional arguments: one `clSetKernelArg` per argument (line 54, status
discarded), the checked enqueue (line 57), and when `wait` the checked
event wait and the two checked profiling reads (lines 60-62). -/
def programCallTrace (nbufs : Nat) (wait : Bool) : List DriverCall :=
  List.replicate nbufs ⟨.clSetKernelArg, false⟩ ++
    [⟨.clEnqueueNDRangeKernel, true⟩] ++
    (if wait then
      [⟨.clWaitForEvents, true⟩, ⟨.clGetEventProfilingInfo, true⟩,
        ⟨.clGetEventProfilingInfo, true⟩]
    else [])

/-- Driver calls of `CLAllocator._alloc` (lines 70-76). -/
def allocTrace (isImage : Bool) : List DriverCall :=
  if isImage then [⟨.clCreateImage2D, true⟩] else [⟨.clCreateBuffer, true⟩]

/-- Driver call of `CLAllocator._free` (line 77). -/
def freeTrace : List DriverCall :=
  [⟨.clReleaseMemObject, true⟩]

/-- Driver calls of `CLAllocator.copyin` (lines 78-80). -/
def copyinTrace : List DriverCall :=
  [⟨.clEnqueueWriteBuffer, true⟩]

/-- Driver call of `CLDevice.synchronize` (lines 101-103). -/
def synchronizeTrace : List DriverCall :=
  [⟨.clFinish, true⟩]

/-- Driver calls of `CLAllocator.copyout` (lines 81-83): the checked
read enqueue, then `synchronize`. -/
def copyoutTrace : List DriverCall :=
  [⟨.clEnqueueReadBuffer, true⟩] ++ synchronizeTrace

/-- Driver calls of `CLDevice.__init__` (lines 88-98): the four
enumeration calls when this is the first construction, then context and
queue creation. -/
def deviceInitTrace (firstConstruction : Bool) : List DriverCall :=
  (if firstConstruction then
    [⟨.clGetPlatformIDs, true⟩, ⟨.clGetPlatformIDs, true⟩,
      ⟨.clGetDeviceIDs, true⟩, ⟨.clGetDeviceIDs, true⟩]
  else []) ++
    [⟨.clCreateContext, true⟩, ⟨.clCreateCommandQueue, true⟩]

/-- Every driver call the file can issue, over all components and both
branches, for a given argument count. -/
def allTraces (nbufs : Nat) (wait : Bool) : List DriverCall :=
  compileTrace true ++ compileTrace false ++ programInitTrace ++ programDelTrace ++
    programCallTrace nbufs wait ++ allocTrace true ++ allocTrace false ++ freeTrace ++
    copyinTrace ++ copyoutTrace ++ synchronizeTrace ++ deviceInitTrace true ++
    deviceInitTrace false

/-! ## Concrete inputs used in witnesses and counterexamples -/

/-- Driver responses of a failed build reporting log "ERR123" (the fake
driver of the spec's testable property). -/
def errDrv : CompilerDriver :=
  { createProgramStatus := 0, buildStatus := -11, buildLogStr := "ERR123",
    binary := [], binarySizesStatus := 0, binariesStatus := 0, releaseStatus := 0 }

/-- A concrete 4-byte host span. -/
def mv0 : MemoryView := { id := 0, length := 4, itemsize := 1 }

/-- A device with an empty pending list. -/
def dev0 : CLDevice := { pending_copyin := [] }

/-- A device with one pending span. -/
def dev1 : CLDevice := { pending_copyin := [mv0] }

/-- Driver responses of one successful profiled invocation. -/
def callDrvW : CallDriver :=
  { enqueueStatus := 0, waitStatus := 0, profileStartStatus := 0,
    profileEndStatus := 0, startTime := 100, endTime := 350, osx := false }

/-! ## Helper lemmas -/

/-- `deviceInit` leaves an already-elected compiler context alone and
elects `tok` when none exists, in one equation. -/
theorem deviceInit_compiler_context (ps : ProcessState) (e : List Nat) (t : Nat) :
    (deviceInit ps e t).compiler_context = some (ps.compiler_context.getD t) := by
  cases hd : ps.device_ids <;> cases hc : ps.compiler_context <;>
    simp [deviceInit, populateDeviceIds, electCompilerContext, hd, hc]

/-- Unfolding one construction step. -/
theorem constructDevices_succ (e : List Nat) (n : Nat) :
    constructDevices e (n + 1) = deviceInit (constructDevices e n) e n := by
  simp [constructDevices, List.range_succ]

/-- A replicated list is `all`-true when the replicated element
satisfies the predicate. -/
theorem all_replicate_of (n : Nat) (a : DriverCall) (f : DriverCall → Bool)
    (h : f a = true) : (List.replicate n a).all f = true := by
  induction n with
  | zero => rfl
  | succ m ih => simp [List.replicate_succ, h, ih]

/-- Filtering a replicated list by a predicate the element fails yields
the empty list. -/
theorem filter_replicate_none (n : Nat) (a : DriverCall) (f : DriverCall → Bool)
    (h : f a = false) : (List.replicate n a).filter f = [] := by
  induction n with
  | zero => rfl
  | succ m ih => simp [List.replicate_succ, h, ih]

/-! ## Claim theorems -/

/-- C2: for every driver state, calling `compile_cl` while no compiler
context exists fails with the assertion error whose message names the
requirement to init a device before compiling; it never silently
succeeds (the result is this error, not a byte value). -/
theorem compile_without_context_fails (drv : CompilerDriver) :
    compile_cl none drv = .error (.assertionError compilerContextAssertMsg) ∧
    ∃ pre suf, compilerContextAssertMsg = pre ++ "init a device" ++ suf := by
  exact ⟨rfl, "OpenCL requires a \"compiler_context\" to compile, ",
    " before you call this", rfl⟩

/-- C3: when program creation succeeds and the driver reports a non-zero
build status, `compile_cl` fetches the build log by the two-step
size-then-fetch protocol — which recovers the full log text — and fails
with a compile error whose message contains the decoded log; no bytes
are returned. -/
theorem compile_build_failure_embeds_log (drv : CompilerDriver)
    (hc : drv.createProgramStatus = 0) (hb : drv.buildStatus ≠ 0) :
    compile_cl (some ()) drv =
      .error (.compileError ("OpenCL Compile Error\n\n" ++ drv.buildLogStr)) ∧
    drv.fetchBuildLog drv.buildLogSize = drv.buildLogStr ∧
    ∃ pre, "OpenCL Compile Error\n\n" ++ drv.buildLogStr = pre ++ drv.buildLogStr := by
  have hfetch : drv.fetchBuildLog drv.buildLogSize = drv.buildLogStr := by
    show (⟨drv.buildLogStr.data.take drv.buildLogStr.length⟩ : String) = drv.buildLogStr
    rw [show drv.buildLogStr.length = drv.buildLogStr.data.length from rfl,
      List.take_length]
  refine ⟨?_, hfetch, "OpenCL Compile Error\n\n", rfl⟩
  simp [compile_cl, checked, check, hc, hb, hfetch]
  rfl

/-- C3 witness: the fake driver reporting build log "ERR123" yields a
compile error whose message contains exactly "ERR123". -/
theorem compile_build_failure_embeds_log_witness :
    compile_cl (some ()) errDrv =
      .error (.compileError "OpenCL Compile Error\n\nERR123") :=
  (compile_build_failure_embeds_log errDrv rfl (by decide)).1

/-- C4: with `local_size` of the same rank as `global_size`, the array
handed to `clEnqueueNDRangeKernel` is exactly the element-wise product
`zipWith (*) global_size local_size`, of full rank; with `local_size`
omitted it is `global_size` unchanged. -/
theorem dispatch_size_equal_rank (g l : List Nat) (h : l.length = g.length) :
    (enqueueParams g (some l)).global_work_size =
      List.zipWith (fun a b => a * b) g l ∧
    (enqueueParams g (some l)).global_work_size.length = g.length ∧
    (enqueueParams g (some l)).work_dim = g.length ∧
    enqueueParams g none = ⟨g.length, g, none⟩ := by
  refine ⟨rfl, ?_, ?_, rfl⟩ <;>
    simp [enqueueParams, effectiveGlobalSize, h]

/-- C4 witness: group counts (2,3) with work-group shape (4,5) dispatch
as (8,15). -/
theorem dispatch_size_equal_rank_witness :
    (enqueueParams [2, 3] (some [4, 5])).global_work_size = [8, 15] :=
  ((dispatch_size_equal_rank [2, 3] [4, 5] rfl).1).trans (by decide)

/-- C9: with mismatched ranks the invocation still goes through (the
model is total, as is line 55's `zip`): the dispatch tuple is the
element-wise product truncated to the shorter rank, and the
dimensionality passed to the driver is that truncated tuple's length. -/
theorem dispatch_rank_mismatch_truncates (g l : List Nat) :
    (enqueueParams g (some l)).global_work_size =
      List.zipWith (fun a b => a * b) g l ∧
    (enqueueParams g (some l)).work_dim = min g.length l.length ∧
    (enqueueParams g (some l)).work_dim =
      (enqueueParams g (some l)).global_work_size.length := by
  refine ⟨rfl, ?_, rfl⟩
  simp [enqueueParams, effectiveGlobalSize]

/-- C6: with all driver statuses successful, a `wait=true` invocation
creates an event, blocks on it (one `clWaitForEvents` in its trace),
reads both timestamps and returns `(end - start) * ratio * 1e-9` with
ratio 1 off OSX; a `wait=false` invocation creates no event, never
blocks and returns `None`. -/
theorem call_profiling_result (drv : CallDriver) (nbufs : Nat)
    (he : drv.enqueueStatus = 0) (hw : drv.waitStatus = 0)
    (hs : drv.profileStartStatus = 0) (hd : drv.profileEndStatus = 0) :
    callResult drv true =
      .ok (some ((((drv.endTime : Int) - (drv.startTime : Int) : Int) : ℚ) *
        osxTimingRatio drv.osx * (1 / 10 ^ 9))) ∧
    callResult drv false = .ok none ∧
    osxTimingRatio false = 1 ∧
    callEventCreated true = true ∧
    callEventCreated false = false ∧
    ((programCallTrace nbufs true).filter fun c =>
      c.kind == CLCallKind.clWaitForEvents).length = 1 ∧
    ((programCallTrace nbufs false).filter fun c =>
      c.kind == CLCallKind.clWaitForEvents).length = 0 := by
  refine ⟨?_, ?_, rfl, rfl, rfl, ?_, ?_⟩
  · simp [callResult, check, he, hw, hs, hd]
    rfl
  · simp [callResult, check, he]
  · simp [programCallTrace, filter_replicate_none nbufs ⟨.clSetKernelArg, false⟩
      (fun c => c.kind == CLCallKind.clWaitForEvents) (by decide)]
  · simp [programCallTrace, filter_replicate_none nbufs ⟨.clSetKernelArg, false⟩
      (fun c => c.kind == CLCallKind.clWaitForEvents) (by decide)]

/-- C6 witness: timestamps 100 and 350 off OSX give 250 ns, i.e.
1/4000000 of a second; without `wait` the result is `None`. -/
theorem call_profiling_result_witness :
    callResult callDrvW true = .ok (some ((1 : ℚ) / 4000000)) ∧
    callResult callDrvW false = .ok none := by
  have h := call_profiling_result callDrvW 0 rfl rfl rfl rfl
  refine ⟨h.1.trans ?_, h.2.1⟩
  norm_num [callDrvW, osxTimingRatio]

/-- C7: one equation captures the write-once discipline — a
construction sets the compiler context to the existing holder if there
is one and to the new instance otherwise — so it is non-null after any
construction, and for every construction sequence the first-constructed
device (token 0) is the compiler context ever after. -/
theorem compiler_context_set_once (ps : ProcessState) (e : List Nat) (t n : Nat) :
    (deviceInit ps e t).compiler_context = some (ps.compiler_context.getD t) ∧
    (deviceInit ps e t).compiler_context.isSome = true ∧
    (constructDevices e (n + 1)).compiler_context = some 0 := by
  refine ⟨deviceInit_compiler_context ps e t, ?_, ?_⟩
  · rw [deviceInit_compiler_context]; rfl
  · induction n with
    | zero => rw [constructDevices_succ, deviceInit_compiler_context]; rfl
    | succ m ih => rw [constructDevices_succ, deviceInit_compiler_context, ih]; rfl

/-- C10: when `clFinish` reports a non-zero status, `synchronize` raises
the runtime error and returns the device with `pending_copyin` exactly
as it was; the list is cleared only on the success status. -/
theorem synchronize_error_atomic (dev : CLDevice) (st : Int) (h : st ≠ 0) :
    synchronize dev st = (dev, .error (.runtimeError st)) ∧
    synchronize dev 0 = ({ dev with pending_copyin := [] }, .ok ()) := by
  constructor <;> simp [synchronize, check, h]

/-- C10 witness: a failing drain (status 5) on a device with one pending
span leaves the span pending. -/
theorem synchronize_error_atomic_witness :
    synchronize dev1 5 = (dev1, .error (.runtimeError 5)) :=
  (synchronize_error_atomic dev1 5 (by decide)).1

/-- C1 counterexample: at device `dev0`, span `mv0` and enqueue status
−4, `copyin` raises before the append, so this copy_in call appends no
element — refuting "every copy_in call appends exactly one element". -/
theorem copyin_failure_appends_nothing :
    ((copyin dev0 mv0 (-4)).1.pending_copyin ==
      dev0.pending_copyin ++ [mv0]) = false ∧
    (copyin dev0 mv0 (-4)).1.pending_copyin = dev0.pending_copyin ∧
    (copyin dev0 mv0 (-4)).2 = .error (.runtimeError (-4)) :=
  ⟨by decide, rfl, rfl⟩

/-- C1 (amended): the pending list is append-only outside synchronize —
every operation either leaves it unchanged, or is a `copyin` whose
enqueue succeeded and appended exactly its source span, or successfully
ran `synchronize`'s body (directly or via `copyout`) and cleared it;
moreover every `copyin` with a success status appends exactly its span
and every successful `synchronize` clears the list. -/
theorem pending_copyin_append_only (dev : CLDevice) (op : DeviceOp) (src : MemoryView) :
    ((applyOp dev op).1.pending_copyin = dev.pending_copyin ∨
      (∃ s st, op = DeviceOp.opCopyin s st ∧
        (applyOp dev op).1.pending_copyin = dev.pending_copyin ++ [s] ∧
        (applyOp dev op).2 = .ok ()) ∨
      ((applyOp dev op).1.pending_copyin = [] ∧ op.runsSynchronize = true ∧
        (applyOp dev op).2 = .ok ())) ∧
    (copyin dev src 0).1.pending_copyin = dev.pending_copyin ++ [src] ∧
    (synchronize dev 0).1.pending_copyin = [] := by
  refine ⟨?_, by simp [copyin, check], by simp [synchronize, check]⟩
  cases op with
  | opCopyin s st =>
    by_cases h : st = 0
    · exact Or.inr (Or.inl ⟨s, st, rfl, by simp [applyOp, copyin, check, h],
        by simp [applyOp, copyin, check, h]⟩)
    · exact Or.inl (by simp [applyOp, copyin, check, h])
  | opCopyout st fst =>
    by_cases h : st = 0
    · by_cases hf : fst = 0
      · exact Or.inr (Or.inr ⟨by simp [applyOp, copyout, synchronize, check, h, hf],
          rfl, by simp [applyOp, copyout, synchronize, check, h, hf]⟩)
      · exact Or.inl (by simp [applyOp, copyout, synchronize, check, h, hf])
    · exact Or.inl (by simp [applyOp, copyout, check, h])
  | opSynchronize fst =>
    by_cases hf : fst = 0
    · exact Or.inr (Or.inr ⟨by simp [applyOp, synchronize, check, hf], rfl,
        by simp [applyOp, synchronize, check, hf]⟩)
    · exact Or.inl (by simp [applyOp, synchronize, check, hf])
  | opAlloc size dtype st => exact Or.inl rfl
  | opFree st => exact Or.inl rfl
  | opProgramCall drv wait => exact Or.inl rfl

/-- C5: an image-typed allocation with element byte width 2 gets the
4-channel half-float format and one with byte width 4 the 4-channel
float format, each with width `shape[1]` and height `shape[0]`; any
other byte width raises the lookup failure before any driver call; a
non-image allocation is a linear buffer of `size * itemsize` bytes. -/
theorem alloc_image_format (size : Nat) (shape : List Nat) (k m : Nat) (st : Int)
    (hk2 : k ≠ 2) (hk4 : k ≠ 4) :
    alloc size (.image 2 shape) 0 =
      .ok (.image2D ⟨CL_RGBA, CL_HALF_FLOAT⟩ (shape.getD 1 0) (shape.getD 0 0)) ∧
    alloc size (.image 4 shape) 0 =
      .ok (.image2D ⟨CL_RGBA, CL_FLOAT⟩ (shape.getD 1 0) (shape.getD 0 0)) ∧
    alloc size (.image k shape) st = .error (.keyError k) ∧
    alloc size (.plain m) 0 = .ok (.buffer (size * m)) := by
  refine ⟨rfl, rfl, ?_, rfl⟩
  simp [alloc, imageChannelType, hk2, hk4]
  rfl

/-- C5 witness: shape (5, 7) gives width 7 and height 5 with the
half-float format at byte width 2; byte width 8 fails with the key
error; a plain 3-element width-9 request is a 27-byte buffer. -/
theorem alloc_image_format_witness :
    alloc 3 (.image 2 [5, 7]) 0 = .ok (.image2D ⟨CL_RGBA, CL_HALF_FLOAT⟩ 7 5) ∧
    alloc 3 (.image 8 [5, 7]) (-1) = .error (.keyError 8) ∧
    alloc 3 (.plain 9) 0 = .ok (.buffer 27) := by
  have h := alloc_image_format 3 [5, 7] 8 9 (-1) (by decide) (by decide)
  exact ⟨h.1, h.2.2.1, h.2.2.2⟩

/-- C8 counterexample: the kernel-argument-binding call of a
one-argument invocation appears in the trace with its status discarded,
so "every driver call is checked" is false. -/
theorem setkernelarg_status_discarded :
    (⟨CLCallKind.clSetKernelArg, false⟩ : DriverCall) ∈ programCallTrace 1 false ∧
    ((allTraces 1 false).all fun c => c.statusChecked) = false := by
  decide

/-- C8 (amended): over every driver call the file can issue, the status
is checked at the call site (by `check`/`checked` or the explicit
build-status test) in exactly every case other than the
`clSetKernelArg` calls of program invocation and the
`clGetProgramBuildInfo` calls of the compile failure path, whose
returned statuses are discarded. -/
theorem checked_calls_characterized (nbufs : Nat) (wait : Bool) :
    ((allTraces nbufs wait).all fun c =>
      c.statusChecked == (!(c.kind == CLCallKind.clSetKernelArg) &&
        !(c.kind == CLCallKind.clGetProgramBuildInfo))) = true := by
  cases wait <;>
    simp [allTraces, compileTrace, programInitTrace, programDelTrace,
      programCallTrace, allocTrace, freeTrace, copyinTrace, copyoutTrace,
      synchronizeTrace, deviceInitTrace,
      all_replicate_of nbufs ⟨.clSetKernelArg, false⟩ (fun c =>
        c.statusChecked == (!(c.kind == CLCallKind.clSetKernelArg) &&
          !(c.kind == CLCallKind.clGetProgramBuildInfo))) (by decide)]

end OpsGpu
